import Mathlib

/-!
waypoint-plugin-sdk: the infra plugin bridge and the component role names

A shallow embedding of

* `component/type_string.go` (`Type.String`, the role-name table), and
* `internal/plugin/infrastructure.go` (`InfraPlugin.GRPCClient`, `infraClient`,
  `infraServer`) with `internal/plugin/infrastructure_mix.go`.

Go values are modelled as follows: a pointer that may be `nil` is an `Option`;
an interface field that stores a pointer is an `Iface`, which keeps the nil
interface apart from an interface holding a nil pointer; a `(value, error)` result is an `Except`; a byte slice is a
`List Nat`; a Go `map` is an association list.  Remote endpoints and helpers
that live outside these files (the gRPC stub, `funcspec.Spec`,
`callDynamicFuncAny2`, `templateData`, `json.Unmarshal`) are parameters of the
functions that call them.  Side effects that matter (requests sent, log lines,
cleanup collectors created and closed) are recorded in an explicit event list.
-/

namespace component

/-! ## `component/type_string.go` -/

/-- The constant `_Type_name`: all role names, concatenated. -/
def _Type_name : String :=
  "InvalidBuilderRegistryPlatformReleaseManagerLogPlatformAuthenticatorMapperConfigSourcerTaskLaunchermaxType"

/-- The array `_Type_index` of `uint8` offsets into `_Type_name`. -/
def _Type_index : List Nat := [0, 7, 14, 22, 30, 44, 55, 68, 74, 87, 99, 106]

/-- Modelled from the spec: the declaration of `component.Type` is outside these
files; the role tags are unsigned integers (the generated guard of `String` has
no test for negative values), taken here as Go's `uint`, which is 64 bits wide
on a 64-bit target.  A role value is a natural number below `2 ^ uintBits`. -/
def uintBits : Nat := 64

/-- Go's conversion `int64(i)` of an unsigned value: the low 64 bits, read as
two's complement. -/
def int64 (i : Nat) : Int :=
  if i % 2 ^ 64 < 2 ^ 63 then ((i % 2 ^ 64 : Nat) : Int)
  else ((i % 2 ^ 64 : Nat) : Int) - 2 ^ 64

/-- Go's `strconv.FormatInt(i, 10)`: a minus sign for a negative number, then
the decimal digits of the magnitude. -/
def FormatInt10 : Int → String
  | Int.ofNat n => Nat.repr n
  | Int.negSucc n => "-" ++ Nat.repr (n + 1)

/-- Go's slice expression `s[lo:hi]` on a string; `none` is the run-time panic
for bounds that are out of range.  (`_Type_name` is ASCII, so bytes and
characters coincide.) -/
def sliceString (s : String) (lo hi : Nat) : Option String :=
  if lo ≤ hi ∧ hi ≤ s.length then some (String.mk ((s.data.drop lo).take (hi - lo)))
  else none

/-- The method `func (i Type) String() string`.  `none` stands for an index or
slice panic. -/
def Type_String (i : Nat) : Option String :=
  if i ≥ _Type_index.length - 1 then
    some ("Type(" ++ FormatInt10 (int64 i) ++ ")")
  else
    match _Type_index[i]?, _Type_index[i + 1]? with
    | some lo, some hi => sliceString _Type_name lo hi
    | _, _ => none

end component

namespace plugin

/-! ## Values shared by client and server -/

/-- The gRPC status codes of `google.golang.org/grpc/codes`, in numeric order. -/
inductive codes
  | OK | Canceled | Unknown | InvalidArgument | DeadlineExceeded | NotFound
  | AlreadyExists | PermissionDenied | ResourceExhausted | FailedPrecondition
  | Aborted | OutOfRange | Unimplemented | Internal | Unavailable | DataLoss
  | Unauthenticated
  deriving DecidableEq, Repr

/-- A non-nil Go `error`: either a gRPC status error carrying a code, or an
error of some other kind. -/
inductive GoError
  | status (code : codes) (msg : String)
  | other (msg : String)
  deriving DecidableEq, Repr

/-- The function `status.Code(err)` on a non-nil error: the code of a status
error, `Unknown` for anything else. -/
def status_Code : GoError → codes
  | GoError.status c _ => c
  | GoError.other _ => codes.Unknown

/-- The call `status.Errorf(c, msg)`. -/
def status_Errorf (c : codes) (msg : String) : GoError := GoError.status c msg

/-- The message `opaqueany.Any`: an encoded payload. -/
structure OpaqueAny where
  TypeUrl : String
  Value : List Nat
  deriving DecidableEq, Repr

/-- Modelled from the spec: the generated message `pb.FuncSpec_Value` is outside
these files; it is one slot, with a logical name, a declared type and, in an
invocation request, the encoded value. -/
structure FuncSpec_Value where
  Name : String
  Type_ : String
  Value : Option OpaqueAny
  deriving DecidableEq, Repr

/-- Modelled from the spec: the generated message `pb.FuncSpec` is outside these
files; it is a function name, the ordered slot list `Args` and the declared
result `Result`.  A nil slice is the empty list. -/
structure FuncSpec where
  Name : String
  Args : List FuncSpec_Value
  Result : List FuncSpec_Value
  deriving DecidableEq, Repr

/-- Modelled from the spec: the generated message `pb.Infra_Resp` is outside these
files; it carries the primary encoded payload, the auxiliary JSON payload, the
label mapping and the template-data bytes (the four fields the handlers read
and write).  A nil map or byte slice is the empty list. -/
structure Infra_Resp where
  Result : Option OpaqueAny
  ResultJson : String
  Labels : List (String × String)
  TemplateData : List Nat
  deriving DecidableEq, Repr

/-- The struct `plugincomponent.Artifact`, with the four fields the client fills
in; `M` is the Go type `map[string]interface{}` and `none` its nil value. -/
structure Artifact (M : Type) where
  Any : Option OpaqueAny
  AnyJson : String
  LabelsVal : List (String × String)
  TemplateVal : Option M

/-- The struct `pluginargs.Internal` as built inline by the client and by
`base.internal()`: broker handle, mapper handles, and the identity of the
cleanup collector `&pluginargs.Cleanup{}` allocated for it. -/
structure Internal where
  Broker : Nat
  Mappers : List Nat
  Cleanup : Nat
  deriving DecidableEq, Repr

/-- The remote procedures of the `Infrastructure` service used here. -/
inductive Rpc
  | InfraSpec | InfraSpecODR | Infra | InfraODR
  deriving DecidableEq, Repr

/-- Observable effects of a call, in program order. -/
inductive Event
  | request (m : Rpc)
  | logDebug (msg : String)
  | logError (msg : String)
  | logInfo (msg : String)
  | funcspecSpec
  | callDynamicFuncAny2
  | templateData
  | newCleanup (id : Nat)
  | closeCleanup (id : Nat)
  deriving DecidableEq, Repr

/-- How a Go function ends: it returns a value, returns an error, or panics. -/
inductive Outcome (α : Type)
  | ok (v : α)
  | error (err : GoError)
  | panic
  deriving DecidableEq, Repr

/-! ## Client side -/

/-- The gRPC stub `pb.InfrastructureClient`: what the remote answers to each
request.  A stub call yields either a reply or an error. -/
structure InfrastructureClient where
  InfraSpec : Except GoError FuncSpec
  InfraSpecODR : Except GoError FuncSpec
  Infra : List FuncSpec_Value → Except GoError Infra_Resp
  InfraODR : List FuncSpec_Value → Except GoError Infra_Resp

/-- The struct `infraClient`. -/
structure infraClient where
  client : InfrastructureClient
  logger : Nat
  broker : Nat
  mappers : List Nat
  odr : Bool

/-- The two callbacks `c.infra` and `c.infraODR` that `InfraFunc` can hand to
`funcspec.Func`. -/
inductive Invoker
  | infra | infraODR
  deriving DecidableEq, Repr

/-- The value `InfraFunc` returns: `funcErr(err)`, or
`funcspec.Func(spec, cb, argmapper.Logger(logger), argmapper.Typed(internal))`. -/
inductive DynFunc
  | funcErr (err : GoError)
  | Func (spec : FuncSpec) (cb : Invoker) (logger : Nat) (internal : Internal)
  deriving DecidableEq, Repr

/-- The block after the label `basic:` of `infraClient.InfraFunc`.  `cid` names
the cleanup collector the call allocates for the function it builds. -/
def infraClient.InfraFunc_basic (c : infraClient) (cid : Nat) : DynFunc × List Event :=
  match c.client.InfraSpec with
  | Except.error err => (DynFunc.funcErr err, [Event.request Rpc.InfraSpec])
  | Except.ok spec =>
    (DynFunc.Func { spec with Result := [] } Invoker.infra c.logger
        { Broker := c.broker, Mappers := c.mappers, Cleanup := cid },
      [Event.request Rpc.InfraSpec])

/-- The method `infraClient.InfraFunc`: the returned value and the effects. -/
def infraClient.InfraFunc (c : infraClient) (cid : Nat) : DynFunc × List Event :=
  if c.odr then
    let pre := [Event.logDebug "Running in ODR mode, attempting to retrieve ODR infra spec",
      Event.request Rpc.InfraSpecODR]
    match c.client.InfraSpecODR with
    | Except.error err =>
      if status_Code err = codes.Unimplemented then
        let r := c.InfraFunc_basic cid
        (r.1, pre ++ [Event.logDebug "plugin didn't implement InfraSpecODR, using Infra"] ++ r.2)
      else
        (DynFunc.funcErr err, pre ++ [Event.logError "error retrieving ODR infra spec"])
    | Except.ok spec =>
      (DynFunc.Func { spec with Result := [] } Invoker.infraODR c.logger
          { Broker := c.broker, Mappers := c.mappers, Cleanup := cid },
        pre)
  else
    let r := c.InfraFunc_basic cid
    (r.1, [Event.logDebug "Running in non-ODR mode, using Infra"] ++ r.2)

/-- The method `infraClient.infra`; `unmarshal` is `json.Unmarshal` into a nil
`map[string]interface{}`, yielding the map it leaves behind or an error. -/
def infraClient.infra {M : Type} (unmarshal : List Nat → Except GoError (Option M))
    (c : infraClient) (args : List FuncSpec_Value) : Except GoError (Artifact M) :=
  match c.client.Infra args with
  | Except.error err => Except.error err
  | Except.ok resp =>
    let decoded : Except GoError (Option M) :=
      if resp.TemplateData.length > 0 then unmarshal resp.TemplateData else Except.ok none
    match decoded with
    | Except.error err => Except.error err
    | Except.ok tplData =>
      Except.ok { Any := resp.Result, AnyJson := resp.ResultJson, LabelsVal := resp.Labels,
                  TemplateVal := tplData }

/-- The method `infraClient.infraODR`.  The struct literal of the source sets no
`AnyJson`, so that field keeps Go's zero value, the empty string. -/
def infraClient.infraODR {M : Type} (unmarshal : List Nat → Except GoError (Option M))
    (c : infraClient) (args : List FuncSpec_Value) : Except GoError (Artifact M) :=
  match c.client.InfraODR args with
  | Except.error err => Except.error err
  | Except.ok resp =>
    let decoded : Except GoError (Option M) :=
      if resp.TemplateData.length > 0 then unmarshal resp.TemplateData else Except.ok none
    match decoded with
    | Except.error err => Except.error err
    | Except.ok tplData =>
      Except.ok { Any := resp.Result, AnyJson := "", LabelsVal := resp.Labels,
                  TemplateVal := tplData }

/-! ## Capability composition -/

/-- The struct `ODRSetting`. -/
structure ODRSetting where
  Enabled : Bool

/-- The struct `authenticatorClient`, as `GRPCClient` fills it in. -/
structure authenticatorClient where
  Client : InfrastructureClient
  Logger : Nat
  Broker : Nat
  Mappers : List Nat

/-- A Go interface value whose dynamic type, when it has one, is a pointer to
`α`.  `Iface.nil` is the nil interface (the only value that compares equal to
`nil`); `Iface.holds p` is an interface holding the pointer `p`, and `p` may
itself be the nil pointer, `none`. -/
inductive Iface (α : Type)
  | nil
  | holds (p : Option α)

/-- The Go test `v == nil` on an interface value. -/
def Iface.isNil {α : Type} : Iface α → Bool
  | Iface.nil => true
  | Iface.holds _ => false

/-- The object behind an interface value, if there is one: nothing for the nil
interface and nothing for an interface that holds a nil pointer. -/
def Iface.target {α : Type} : Iface α → Option α
  | Iface.nil => none
  | Iface.holds p => p

/-- The struct `mix_Infra_Authenticator` of `infrastructure_mix.go`: four embedded
interfaces.  `GRPCClient` stores a `*authenticatorClient` in the first and the
`*infraClient` in the other three. -/
structure mix_Infra_Authenticator where
  Authenticator : Iface authenticatorClient
  ConfigurableNotify : Iface infraClient
  Infra : Iface infraClient
  Documented : Iface infraClient

/-- The client-relevant fields of the struct `InfraPlugin`. -/
structure InfraPlugin where
  Mappers : List Nat
  Logger : Nat
  ODR : Option ODRSetting

/-- The client that `GRPCClient` builds before probing, `odr` included. -/
def InfraPlugin.newClient (p : InfraPlugin) (broker : Nat) (conn : InfrastructureClient) :
    infraClient :=
  { client := conn, logger := p.Logger, broker := broker, mappers := p.Mappers,
    odr := match p.ODR with
      | some o => o.Enabled
      | none => false }

/-- The method `InfraPlugin.GRPCClient`.  `Implements` is the method
`authenticatorClient.Implements`, returning Go's `(bool, error)` pair.  The
result is Go's `(interface{}, error)` pair together with the log lines.  The
local `authenticator` is a `*authenticatorClient`; after `authenticator = nil`
the struct literal stores that nil pointer in the interface field, which makes
the field an interface holding a nil pointer, not a nil interface. -/
def InfraPlugin.GRPCClient (p : InfraPlugin)
    (Implements : authenticatorClient → Bool × Option GoError)
    (broker : Nat) (conn : InfrastructureClient) :
    (Option mix_Infra_Authenticator × Option GoError) × List Event :=
  let client := p.newClient broker conn
  let authenticator : authenticatorClient :=
    { Client := client.client, Logger := client.logger, Broker := client.broker,
      Mappers := client.mappers }
  match Implements authenticator with
  | (_, some err) => ((none, some err), [])
  | (ok, none) =>
    let auth : Option authenticatorClient := if ok then some authenticator else none
    let logs := if ok then [Event.logInfo "infra plugin capable of auth"] else []
    ((some { ConfigurableNotify := Iface.holds (some client),
             Infra := Iface.holds (some client),
             Authenticator := Iface.holds auth,
             Documented := Iface.holds (some client) }, none), logs)

/-! ## Server side -/

/-- The value stored in the interface field `infraServer.Impl`: its `InfraFunc()`
and, when the value also satisfies `component.InfraODR`, its `InfraODRFunc()`.
`F` is the type of the dynamic functions a plugin author registers. -/
structure InfraImpl (F : Type) where
  InfraFunc : F
  InfraODRFunc : Option F

/-- The struct `infraServer` with the fields of the embedded `*base`; a nil
`Impl` is `none`. -/
structure infraServer (F : Type) where
  Impl : Option (InfraImpl F)
  Mappers : List Nat
  Logger : Nat
  Broker : Nat

/-- The helpers the server handlers call that live in other files.
`Spec` is `funcspec.Spec` (a Go `(spec, error)` pair), `callDynamicFuncAny2`
resolves the arguments and invokes the function, `artifactLabels raw` is
`raw.(component.Artifact)` followed by `.Labels()` (`none` when the assertion
fails), `templateData` is the helper of that name. -/
structure ServerEnv (F Raw : Type) where
  Spec : F → Nat → List Nat → Internal → Option FuncSpec × Option GoError
  callDynamicFuncAny2 : F → List FuncSpec_Value → List Nat → Nat → Internal →
    Outcome (Option OpaqueAny × String × Raw)
  artifactLabels : Raw → Option (List (String × String))
  templateData : Raw → Outcome (List Nat)

/-- Modelled from the spec: `base.internal()` is defined outside these files; it
builds the per-call value pool from the broker, the converters and a new cleanup
collector.  `cid` names the collector this call allocates. -/
def infraServer.internal {F : Type} (s : infraServer F) (cid : Nat) : Internal :=
  { Broker := s.Broker, Mappers := s.Mappers, Cleanup := cid }

/-- The error `status.Errorf(codes.Unimplemented, "plugin does not implement: infra")`. -/
def errNotImplemented : GoError :=
  status_Errorf codes.Unimplemented "plugin does not implement: infra"

/-- The method `infraServer.InfraSpec`: Go's `(spec, error)` pair and the effects. -/
def infraServer.InfraSpec {F Raw : Type} (env : ServerEnv F Raw) (s : infraServer F)
    (cid : Nat) : (Option FuncSpec × Option GoError) × List Event :=
  match s.Impl with
  | none => ((none, some errNotImplemented), [])
  | some impl =>
    (env.Spec impl.InfraFunc s.Logger s.Mappers (s.internal cid),
      [Event.newCleanup cid, Event.funcspecSpec])

/-- The method `infraServer.InfraSpecODR`. -/
def infraServer.InfraSpecODR {F Raw : Type} (env : ServerEnv F Raw) (s : infraServer F)
    (cid : Nat) : (Option FuncSpec × Option GoError) × List Event :=
  match s.Impl with
  | none => ((none, some errNotImplemented), [])
  | some impl =>
    match impl.InfraODRFunc with
    | none => ((none, some errNotImplemented), [])
    | some odrFunc =>
      (env.Spec odrFunc s.Logger s.Mappers (s.internal cid),
        [Event.newCleanup cid, Event.funcspecSpec])

/-- The statements of `Infra` and of `InfraODR` from the call of
`callDynamicFuncAny2` to the final `return`, for the dynamic function `f`. -/
def infraServer.invoke {F Raw : Type} (env : ServerEnv F Raw) (s : infraServer F)
    (f : F) (internal : Internal) (args : List FuncSpec_Value) :
    Outcome Infra_Resp × List Event :=
  match env.callDynamicFuncAny2 f args s.Mappers s.Logger internal with
  | Outcome.panic => (Outcome.panic, [Event.callDynamicFuncAny2])
  | Outcome.error err => (Outcome.error err, [Event.callDynamicFuncAny2])
  | Outcome.ok (encoded, encodedJson, raw) =>
    let labels : List (String × String) :=
      match env.artifactLabels raw with
      | some l => l
      | none => []
    match env.templateData raw with
    | Outcome.panic => (Outcome.panic, [Event.callDynamicFuncAny2, Event.templateData])
    | Outcome.error err =>
      (Outcome.error err, [Event.callDynamicFuncAny2, Event.templateData])
    | Outcome.ok data =>
      (Outcome.ok { Result := encoded, ResultJson := encodedJson, Labels := labels,
                    TemplateData := data },
        [Event.callDynamicFuncAny2, Event.templateData])

/-- The statement `defer internal.Cleanup.Close()` around a function body: the
close runs after the body, however the body ends. -/
def withDeferredClose {α : Type} (internal : Internal) (body : Outcome α × List Event) :
    Outcome α × List Event :=
  (body.1, body.2 ++ [Event.closeCleanup internal.Cleanup])

/-- The method `infraServer.Infra`.  With a nil `Impl` the call
`s.Impl.InfraFunc()` panics, after the `defer` has been registered. -/
def infraServer.Infra {F Raw : Type} (env : ServerEnv F Raw) (s : infraServer F)
    (cid : Nat) (args : List FuncSpec_Value) : Outcome Infra_Resp × List Event :=
  let internal := s.internal cid
  let r := withDeferredClose internal
    (match s.Impl with
     | none => (Outcome.panic, [])
     | some impl => s.invoke env impl.InfraFunc internal args)
  (r.1, [Event.newCleanup cid] ++ r.2)

/-- The method `infraServer.InfraODR`.  The comma-ok type assertion
`s.Impl.(component.InfraODR)` fails, without panicking, for a nil `Impl` too. -/
def infraServer.InfraODR {F Raw : Type} (env : ServerEnv F Raw) (s : infraServer F)
    (cid : Nat) (args : List FuncSpec_Value) : Outcome Infra_Resp × List Event :=
  match s.Impl.bind (fun impl => impl.InfraODRFunc) with
  | none => (Outcome.error errNotImplemented, [])
  | some odrFunc =>
    let internal := s.internal cid
    let r := withDeferredClose internal (s.invoke env odrFunc internal args)
    (r.1, [Event.newCleanup cid] ++ r.2)

/-- The requests a call sent to the remote, in order. -/
def requests (evs : List Event) : List Rpc :=
  evs.filterMap (fun e => match e with
    | Event.request m => some m
    | _ => none)

/-- How many times the collector `cid` was closed. -/
def closeCount (cid : Nat) (evs : List Event) : Nat :=
  evs.count (Event.closeCleanup cid)

/-- How many cleanup collectors a call created. -/
def newCleanupCount (evs : List Event) : Nat :=
  (evs.filter (fun e => match e with
    | Event.newCleanup _ => true
    | _ => false)).length

/-- How many times a call closed any cleanup collector. -/
def anyCloseCount (evs : List Event) : Nat :=
  (evs.filter (fun e => match e with
    | Event.closeCleanup _ => true
    | _ => false)).length

/-! ## Concrete remotes used to exercise the theorems -/

/-- A specification as a server would send it: one slot and a declared result. -/
def demoSpec : FuncSpec :=
  { Name := "infra",
    Args := [{ Name := "", Type_ := "hashicorp.waypoint.sdk.Args.Source", Value := none }],
    Result := [{ Name := "", Type_ := "testproto.Data", Value := none }] }

/-- A second specification, distinct from `demoSpec`, for the alternate mode. -/
def demoSpecODR : FuncSpec :=
  { Name := "infraODR",
    Args := [{ Name := "", Type_ := "hashicorp.waypoint.sdk.Args.Source", Value := none },
             { Name := "", Type_ := "hashicorp.waypoint.sdk.Args.JobInfo", Value := none }],
    Result := [{ Name := "", Type_ := "testproto.Data", Value := none }] }

/-- A reply carrying both payloads, labels, and no template data. -/
def demoResp : Infra_Resp :=
  { Result := some { TypeUrl := "testproto.Data", Value := [10, 5, 104, 101, 108, 108, 111] },
    ResultJson := "[1]",
    Labels := [("tier", "web")],
    TemplateData := [] }

/-- A reply like `demoResp`, with template data attached. -/
def demoRespTpl : Infra_Resp := { demoResp with TemplateData := [123, 125] }

/-- An old plugin: it serves the primary mode and answers `Unimplemented` to the
alternate one. -/
def oldPlugin : InfrastructureClient :=
  { InfraSpec := Except.ok demoSpec,
    InfraSpecODR := Except.error (GoError.status codes.Unimplemented "unknown method InfraSpecODR"),
    Infra := fun _ => Except.ok demoResp,
    InfraODR := fun _ => Except.error (GoError.status codes.Unimplemented "unknown method InfraODR") }

/-- A plugin that serves both modes. -/
def odrPlugin : InfrastructureClient :=
  { InfraSpec := Except.ok demoSpec,
    InfraSpecODR := Except.ok demoSpecODR,
    Infra := fun _ => Except.ok demoResp,
    InfraODR := fun _ => Except.ok demoResp }

/-- A remote whose alternate spec request fails for a reason other than absence. -/
def flakyPlugin : InfrastructureClient :=
  { InfraSpec := Except.ok demoSpec,
    InfraSpecODR := Except.error (GoError.status codes.Unavailable "connection refused"),
    Infra := fun _ => Except.ok demoRespTpl,
    InfraODR := fun _ => Except.ok demoRespTpl }

/-- A client of `remote` with the given mode. -/
def demoClient (remote : InfrastructureClient) (odr : Bool) : infraClient :=
  { client := remote, logger := 1, broker := 2, mappers := [3, 4], odr := odr }

/-- A plugin description with ODR switched on. -/
def demoPlugin : InfraPlugin := { Mappers := [3, 4], Logger := 1, ODR := some { Enabled := true } }

/-- A stand-in for `json.Unmarshal`: it accepts the two bytes of an empty object
and rejects everything else. -/
def demoUnmarshal (data : List Nat) : Except GoError (Option (List (String × String))) :=
  if data = [123, 125] then Except.ok (some []) else Except.error (GoError.other "invalid character")

/-- A server implementation with a primary function only. -/
def primaryOnlyImpl : InfraImpl Nat := { InfraFunc := 7, InfraODRFunc := none }

/-- A server implementation with both functions. -/
def bothImpl : InfraImpl Nat := { InfraFunc := 7, InfraODRFunc := some 8 }

/-- Server helpers for the examples: function 7 succeeds, function 8 fails in the
dynamic call, and a raw result `true` exposes labels. -/
def demoEnv : ServerEnv Nat Bool :=
  { Spec := fun f _ _ _ => if f = 7 then (some demoSpec, none) else (some demoSpecODR, none),
    callDynamicFuncAny2 := fun f _ _ _ _ =>
      if f = 7 then Outcome.ok (demoResp.Result, "[1]", true)
      else Outcome.error (GoError.other "boom"),
    artifactLabels := fun raw => if raw then some [("tier", "web")] else none,
    templateData := fun _ => Outcome.ok [] }

/-- A server around `impl`. -/
def demoServer (impl : Option (InfraImpl Nat)) : infraServer Nat :=
  { Impl := impl, Mappers := [3, 4], Logger := 1, Broker := 2 }

end plugin

/-! ## Theorems about `Type.String` -/

namespace component

theorem Type_index_length : _Type_index.length = 12 := rfl

theorem int64_of_small (n : Nat) (h : n < 2 ^ 63) : int64 n = Int.ofNat n := by
  have h64 : n % 2 ^ 64 = n := Nat.mod_eq_of_lt (by omega)
  unfold int64
  rw [h64, if_pos h]
  rfl

/-- C6, the claim as written fails: on a 64-bit target the role value `2^63` is a
valid `uint`, and `Type.String` renders it with a minus sign, not as the decimal
digits of `2^63`. -/
theorem Type_String_high_bit_renders_negative :
    2 ^ 63 < 2 ^ uintBits ∧ 11 ≤ 2 ^ 63 ∧
    Type_String (2 ^ 63) = some "Type(-9223372036854775808)" ∧
    Type_String (2 ^ 63) ≠ some ("Type(" ++ Nat.repr (2 ^ 63) ++ ")") := by
  decide

/-- C6, amended: `Type.String` returns the ten role names for the values 0..9 in
order and "maxType" for 10; for every value `n` with `11 ≤ n < 2^63` it returns
"Type(" followed by the decimal digits of `n` followed by ")"; and for every
`i < 11` the two offsets read from `_Type_index` exist and satisfy
`lo ≤ hi ≤ len(_Type_name)`, so neither the index nor the slice goes out of range. -/
theorem Type_String_names_and_fallback :
    List.map Type_String (List.range 11) =
      [some "Invalid", some "Builder", some "Registry", some "Platform",
       some "ReleaseManager", some "LogPlatform", some "Authenticator", some "Mapper",
       some "ConfigSourcer", some "TaskLauncher", some "maxType"] ∧
    (∀ n : Nat, 11 ≤ n → n < 2 ^ 63 →
      Type_String n = some ("Type(" ++ Nat.repr n ++ ")")) ∧
    (∀ i : Nat, i < 11 → ∃ lo hi : Nat,
      _Type_index[i]? = some lo ∧ _Type_index[i + 1]? = some hi ∧
      lo ≤ hi ∧ hi ≤ _Type_name.length ∧
      Type_String i = sliceString _Type_name lo hi ∧ Type_String i ≠ none) := by
  refine ⟨by decide, ?_, ?_⟩
  · intro n h11 h63
    unfold Type_String
    rw [Type_index_length, if_pos (by omega), int64_of_small n h63]
    rfl
  · intro i hi
    interval_cases i <;> exact ⟨_, _, rfl, rfl, by decide, by decide, by decide, by decide⟩

/-- C6, the amended statement at concrete values: 3 is "Platform", 10 is the
sentinel, 11 and 4096 fall through to the numeric form. -/
theorem Type_String_names_and_fallback_witness :
    Type_String 3 = some "Platform" ∧ Type_String 10 = some "maxType" ∧
    Type_String 11 = some "Type(11)" ∧ Type_String 4096 = some "Type(4096)" :=
  ⟨by decide, by decide,
   by simpa using Type_String_names_and_fallback.2.1 11 (by decide) (by decide),
   by simpa using Type_String_names_and_fallback.2.1 4096 (by decide) (by decide)⟩

end component

/-! ## Theorems about the infra client's `InfraFunc` -/

namespace plugin

theorem InfraFunc_basic_requests (c : infraClient) (cid : Nat) :
    requests (c.InfraFunc_basic cid).2 = [Rpc.InfraSpec] := by
  unfold infraClient.InfraFunc_basic
  cases c.client.InfraSpec <;> rfl

theorem InfraFunc_basic_odr_irrelevant (c : infraClient) (b : Bool) (cid : Nat) :
    infraClient.InfraFunc_basic { c with odr := b } cid = c.InfraFunc_basic cid := rfl

theorem InfraFunc_non_odr (c : infraClient) (cid : Nat) (h : c.odr = false) :
    (c.InfraFunc cid).1 = (c.InfraFunc_basic cid).1 ∧
    requests (c.InfraFunc cid).2 = [Rpc.InfraSpec] := by
  have hr := InfraFunc_basic_requests c cid
  unfold infraClient.InfraFunc
  simp only [h]
  refine ⟨rfl, ?_⟩
  simpa [requests] using hr

theorem InfraFunc_odr_fallback (c : infraClient) (cid : Nat) (err : GoError)
    (h : c.odr = true) (hspec : c.client.InfraSpecODR = Except.error err)
    (hcode : status_Code err = codes.Unimplemented) :
    (c.InfraFunc cid).1 = (c.InfraFunc_basic cid).1 ∧
    requests (c.InfraFunc cid).2 = [Rpc.InfraSpecODR, Rpc.InfraSpec] := by
  have hr := InfraFunc_basic_requests c cid
  unfold infraClient.InfraFunc
  simp only [h, hspec, hcode]
  refine ⟨rfl, ?_⟩
  simpa [requests] using hr

theorem InfraFunc_odr_fatal (c : infraClient) (cid : Nat) (err : GoError)
    (h : c.odr = true) (hspec : c.client.InfraSpecODR = Except.error err)
    (hcode : status_Code err ≠ codes.Unimplemented) :
    (c.InfraFunc cid).1 = DynFunc.funcErr err ∧
    requests (c.InfraFunc cid).2 = [Rpc.InfraSpecODR] := by
  unfold infraClient.InfraFunc
  simp only [h, hspec, hcode]
  exact ⟨rfl, rfl⟩

theorem InfraFunc_odr_ok (c : infraClient) (cid : Nat) (spec : FuncSpec)
    (h : c.odr = true) (hspec : c.client.InfraSpecODR = Except.ok spec) :
    (c.InfraFunc cid).1 =
      DynFunc.Func { spec with Result := [] } Invoker.infraODR c.logger
        { Broker := c.broker, Mappers := c.mappers, Cleanup := cid } ∧
    requests (c.InfraFunc cid).2 = [Rpc.InfraSpecODR] := by
  unfold infraClient.InfraFunc
  simp only [h, hspec]
  exact ⟨rfl, rfl⟩

theorem InfraFunc_basic_cases (c : infraClient) (cid : Nat) :
    (∀ spec, c.client.InfraSpec = Except.ok spec →
      (c.InfraFunc_basic cid).1 =
        DynFunc.Func { spec with Result := [] } Invoker.infra c.logger
          { Broker := c.broker, Mappers := c.mappers, Cleanup := cid }) ∧
    (∀ e, c.client.InfraSpec = Except.error e →
      (c.InfraFunc_basic cid).1 = DynFunc.funcErr e) ∧
    (∀ spec lg i, (c.InfraFunc_basic cid).1 ≠ DynFunc.Func spec Invoker.infraODR lg i) := by
  unfold infraClient.InfraFunc_basic
  refine ⟨?_, ?_, ?_⟩
  · intro spec h
    simp only [h]
  · intro e h
    simp only [h]
  · intro spec lg i
    cases c.client.InfraSpec <;> simp

/-- C1: when the client runs in ODR mode and the `InfraSpecODR` request fails with
status code `Unimplemented`, `InfraFunc` returns exactly the value it returns for
the same client with `odr = false`; it sends `InfraSpecODR` and then the primary
`InfraSpec`; when the primary request succeeds the function is built from the
primary spec with the primary invoker `infra`, never with `infraODR`; when the
primary request fails too, the result is `funcErr` of the primary error. -/
theorem InfraFunc_fallback_matches_primary_mode (c : infraClient) (cid : Nat) (err : GoError)
    (hodr : c.odr = true) (hspec : c.client.InfraSpecODR = Except.error err)
    (hcode : status_Code err = codes.Unimplemented) :
    (c.InfraFunc cid).1 = (infraClient.InfraFunc { c with odr := false } cid).1 ∧
    requests (c.InfraFunc cid).2 = [Rpc.InfraSpecODR, Rpc.InfraSpec] ∧
    (∀ spec, c.client.InfraSpec = Except.ok spec →
      (c.InfraFunc cid).1 =
        DynFunc.Func { spec with Result := [] } Invoker.infra c.logger
          { Broker := c.broker, Mappers := c.mappers, Cleanup := cid }) ∧
    (∀ e, c.client.InfraSpec = Except.error e → (c.InfraFunc cid).1 = DynFunc.funcErr e) ∧
    (∀ spec lg i, (c.InfraFunc cid).1 ≠ DynFunc.Func spec Invoker.infraODR lg i) := by
  obtain ⟨hval, hreq⟩ := InfraFunc_odr_fallback c cid err hodr hspec hcode
  obtain ⟨hok, herr, hne⟩ := InfraFunc_basic_cases c cid
  have hoff := (InfraFunc_non_odr { c with odr := false } cid rfl).1
  rw [InfraFunc_basic_odr_irrelevant] at hoff
  refine ⟨by rw [hval, hoff], hreq, ?_, ?_, ?_⟩
  · intro spec h
    rw [hval]
    exact hok spec h
  · intro e h
    rw [hval]
    exact herr e h
  · intro spec lg i
    rw [hval]
    exact hne spec lg i

/-- C1 at a concrete remote: an old plugin that answers `Unimplemented` to
`InfraSpecODR` and serves `demoSpec` on `InfraSpec`. -/
theorem InfraFunc_fallback_matches_primary_mode_witness :
    (demoClient oldPlugin true).odr = true ∧
    (demoClient oldPlugin true).client.InfraSpecODR =
      Except.error (GoError.status codes.Unimplemented "unknown method InfraSpecODR") ∧
    ((demoClient oldPlugin true).InfraFunc 0).1 = ((demoClient oldPlugin false).InfraFunc 0).1 ∧
    ((demoClient oldPlugin true).InfraFunc 0).1 =
      DynFunc.Func { demoSpec with Result := [] } Invoker.infra 1
        { Broker := 2, Mappers := [3, 4], Cleanup := 0 } ∧
    requests ((demoClient oldPlugin true).InfraFunc 0).2 = [Rpc.InfraSpecODR, Rpc.InfraSpec] :=
  have h := InfraFunc_fallback_matches_primary_mode (demoClient oldPlugin true) 0
    (GoError.status codes.Unimplemented "unknown method InfraSpecODR") rfl rfl rfl
  ⟨rfl, rfl, h.1, h.2.2.1 demoSpec rfl, h.2.1⟩

/-- C2: for a client with `odr = true`, `InfraFunc` sends the primary `InfraSpec`
request if and only if `InfraSpecODR` failed with status code `Unimplemented`;
when `InfraSpecODR` fails with any other code the result is `funcErr` of that
error and only `InfraSpecODR` was sent; when `InfraSpecODR` succeeds the function
is built with the invoker `infraODR`.  For a client with `odr = false`,
`InfraFunc` never sends `InfraSpecODR`. -/
theorem InfraFunc_primary_request_iff_unimplemented (c : infraClient) (cid : Nat) :
    (c.odr = true →
      (Rpc.InfraSpec ∈ requests (c.InfraFunc cid).2 ↔
        ∃ err, c.client.InfraSpecODR = Except.error err ∧
          status_Code err = codes.Unimplemented) ∧
      (∀ err, c.client.InfraSpecODR = Except.error err →
        status_Code err ≠ codes.Unimplemented →
        (c.InfraFunc cid).1 = DynFunc.funcErr err ∧
        Rpc.InfraSpec ∉ requests (c.InfraFunc cid).2) ∧
      (∀ spec, c.client.InfraSpecODR = Except.ok spec →
        (c.InfraFunc cid).1 =
          DynFunc.Func { spec with Result := [] } Invoker.infraODR c.logger
            { Broker := c.broker, Mappers := c.mappers, Cleanup := cid })) ∧
    (c.odr = false → Rpc.InfraSpecODR ∉ requests (c.InfraFunc cid).2) := by
  constructor
  · intro hodr
    refine ⟨?_, ?_, ?_⟩
    · cases hs : c.client.InfraSpecODR with
      | error err =>
        by_cases hc : status_Code err = codes.Unimplemented
        · rw [(InfraFunc_odr_fallback c cid err hodr hs hc).2]
          simp [hc]
        · rw [(InfraFunc_odr_fatal c cid err hodr hs hc).2]
          simp [hc]
      | ok spec =>
        rw [(InfraFunc_odr_ok c cid spec hodr hs).2]
        simp
    · intro err hs hc
      obtain ⟨h1, h2⟩ := InfraFunc_odr_fatal c cid err hodr hs hc
      rw [h2]
      exact ⟨h1, by simp⟩
    · intro spec hs
      exact (InfraFunc_odr_ok c cid spec hodr hs).1
  · intro hodr
    rw [(InfraFunc_non_odr c cid hodr).2]
    simp

/-- C2 at concrete remotes: a fatal `Unavailable` error is returned as is without
contacting the primary endpoint, a working ODR plugin gets the ODR invoker, and a
non-ODR client sends `InfraSpec` only. -/
theorem InfraFunc_primary_request_iff_unimplemented_witness :
    ((demoClient flakyPlugin true).InfraFunc 0).1 =
      DynFunc.funcErr (GoError.status codes.Unavailable "connection refused") ∧
    Rpc.InfraSpec ∉ requests ((demoClient flakyPlugin true).InfraFunc 0).2 ∧
    ((demoClient odrPlugin true).InfraFunc 0).1 =
      DynFunc.Func { demoSpecODR with Result := [] } Invoker.infraODR 1
        { Broker := 2, Mappers := [3, 4], Cleanup := 0 } ∧
    Rpc.InfraSpecODR ∉ requests ((demoClient odrPlugin false).InfraFunc 0).2 :=
  have h := (InfraFunc_primary_request_iff_unimplemented (demoClient flakyPlugin true) 0).1 rfl
  have hf := h.2.1 (GoError.status codes.Unavailable "connection refused") rfl (by decide)
  ⟨hf.1, hf.2,
   ((InfraFunc_primary_request_iff_unimplemented (demoClient odrPlugin true) 0).1 rfl).2.2
     demoSpecODR rfl,
   (InfraFunc_primary_request_iff_unimplemented (demoClient odrPlugin false) 0).2 rfl⟩

/-- C10: on every path of `InfraFunc` on which a spec request succeeds (ODR mode,
non-ODR mode, fallback from ODR to primary), the specification handed to
`funcspec.Func` has an empty `Result` and the `Name` and `Args` of the
specification the remote sent; and whatever function `InfraFunc` builds has an
empty `Result`. -/
theorem InfraFunc_strips_result (c : infraClient) (cid : Nat) :
    (∀ received, c.odr = true → c.client.InfraSpecODR = Except.ok received →
      ∃ spec lg i, (c.InfraFunc cid).1 = DynFunc.Func spec Invoker.infraODR lg i ∧
        spec.Result = [] ∧ spec.Args = received.Args ∧ spec.Name = received.Name) ∧
    (∀ received, c.odr = false → c.client.InfraSpec = Except.ok received →
      ∃ spec lg i, (c.InfraFunc cid).1 = DynFunc.Func spec Invoker.infra lg i ∧
        spec.Result = [] ∧ spec.Args = received.Args ∧ spec.Name = received.Name) ∧
    (∀ received err, c.odr = true → c.client.InfraSpecODR = Except.error err →
      status_Code err = codes.Unimplemented → c.client.InfraSpec = Except.ok received →
      ∃ spec lg i, (c.InfraFunc cid).1 = DynFunc.Func spec Invoker.infra lg i ∧
        spec.Result = [] ∧ spec.Args = received.Args ∧ spec.Name = received.Name) ∧
    (∀ spec cb lg i, (c.InfraFunc cid).1 = DynFunc.Func spec cb lg i → spec.Result = []) := by
  obtain ⟨hok, herr, -⟩ := InfraFunc_basic_cases c cid
  refine ⟨?_, ?_, ?_, ?_⟩
  · intro received hodr hs
    exact ⟨_, _, _, (InfraFunc_odr_ok c cid received hodr hs).1, rfl, rfl, rfl⟩
  · intro received hodr hs
    refine ⟨{ received with Result := [] }, c.logger,
      { Broker := c.broker, Mappers := c.mappers, Cleanup := cid }, ?_, rfl, rfl, rfl⟩
    rw [(InfraFunc_non_odr c cid hodr).1]
    exact hok received hs
  · intro received err hodr hs hc hp
    refine ⟨{ received with Result := [] }, c.logger,
      { Broker := c.broker, Mappers := c.mappers, Cleanup := cid }, ?_, rfl, rfl, rfl⟩
    rw [(InfraFunc_odr_fallback c cid err hodr hs hc).1]
    exact hok received hp
  · intro spec cb lg i hres
    have hbasic : ∀ spec cb lg i,
        (c.InfraFunc_basic cid).1 = DynFunc.Func spec cb lg i → spec.Result = [] := by
      intro spec cb lg i hb
      cases hp : c.client.InfraSpec with
      | error e => rw [herr e hp] at hb; cases hb
      | ok s => rw [hok s hp] at hb; cases hb; rfl
    cases hodr : c.odr with
    | false =>
      rw [(InfraFunc_non_odr c cid hodr).1] at hres
      exact hbasic _ _ _ _ hres
    | true =>
      cases hs : c.client.InfraSpecODR with
      | error err =>
        by_cases hc : status_Code err = codes.Unimplemented
        · rw [(InfraFunc_odr_fallback c cid err hodr hs hc).1] at hres
          exact hbasic _ _ _ _ hres
        · rw [(InfraFunc_odr_fatal c cid err hodr hs hc).1] at hres
          cases hres
      | ok s =>
        rw [(InfraFunc_odr_ok c cid s hodr hs).1] at hres
        cases hres
        rfl

/-- C10 at concrete remotes: `demoSpec` and `demoSpecODR` declare a result, and
the functions built from them in the three modes do not. -/
theorem InfraFunc_strips_result_witness :
    demoSpec.Result ≠ [] ∧ demoSpecODR.Result ≠ [] ∧
    ((demoClient odrPlugin true).InfraFunc 0).1 =
      DynFunc.Func { Name := "infraODR", Args := demoSpecODR.Args, Result := [] }
        Invoker.infraODR 1 { Broker := 2, Mappers := [3, 4], Cleanup := 0 } ∧
    ((demoClient odrPlugin false).InfraFunc 0).1 =
      DynFunc.Func { Name := "infra", Args := demoSpec.Args, Result := [] }
        Invoker.infra 1 { Broker := 2, Mappers := [3, 4], Cleanup := 0 } ∧
    (∀ spec cb lg i, ((demoClient oldPlugin true).InfraFunc 0).1 = DynFunc.Func spec cb lg i →
      spec.Result = []) :=
  ⟨by decide, by decide, rfl, rfl, (InfraFunc_strips_result (demoClient oldPlugin true) 0).2.2.2⟩

end plugin

/-! ## Theorems about capability composition -/

namespace plugin

theorem GRPCClient_error (p : InfraPlugin)
    (Implements : authenticatorClient → Bool × Option GoError)
    (broker : Nat) (conn : InfrastructureClient) (ok : Bool) (e : GoError)
    (h : Implements { Client := conn, Logger := p.Logger, Broker := broker,
                      Mappers := p.Mappers } = (ok, some e)) :
    (p.GRPCClient Implements broker conn).1 = (none, some e) := by
  unfold InfraPlugin.GRPCClient
  simp only [InfraPlugin.newClient] at h ⊢
  rw [h]

theorem GRPCClient_ok (p : InfraPlugin)
    (Implements : authenticatorClient → Bool × Option GoError)
    (broker : Nat) (conn : InfrastructureClient) (ok : Bool)
    (h : Implements { Client := conn, Logger := p.Logger, Broker := broker,
                      Mappers := p.Mappers } = (ok, none)) :
    (p.GRPCClient Implements broker conn).1 =
      (some { ConfigurableNotify := Iface.holds (some (p.newClient broker conn)),
              Infra := Iface.holds (some (p.newClient broker conn)),
              Authenticator :=
                Iface.holds
                  (if ok then some { Client := conn, Logger := p.Logger, Broker := broker,
                                     Mappers := p.Mappers }
                   else none),
              Documented := Iface.holds (some (p.newClient broker conn)) }, none) := by
  unfold InfraPlugin.GRPCClient
  simp only [InfraPlugin.newClient] at h ⊢
  rw [h]

/-- C3, the claim as written fails: when the probe answers `(false, nil)` the
composite's `Authenticator` field is not nil.  It is an interface that holds a
nil `*authenticatorClient`, so the Go test `m.Authenticator == nil` is false. -/
theorem GRPCClient_authenticator_field_not_nil_when_absent :
    ((demoPlugin.GRPCClient (fun _ => (false, none)) 2 odrPlugin).1.1.map
      (fun m => (m.Authenticator.isNil, m.Authenticator.target.isSome))) =
      some (false, false) := by
  rfl

/-- C3, amended: whatever pair `(ok, err)` the authenticator probe returns,
`GRPCClient` fails exactly when `err` is non-nil, and then returns no composite
and `err` itself; otherwise it returns a composite and no error whose
`Authenticator` field is in both cases a non-nil interface value, holding the
probed `*authenticatorClient` when `ok` is true and a nil `*authenticatorClient`
when `ok` is false (so an authenticator object is behind the field exactly when
`ok` is true), and whose `Infra` is the infra client in both cases. -/
theorem GRPCClient_follows_authenticator_probe (p : InfraPlugin)
    (Implements : authenticatorClient → Bool × Option GoError)
    (broker : Nat) (conn : InfrastructureClient) (ok : Bool) (err : Option GoError)
    (h : Implements { Client := conn, Logger := p.Logger, Broker := broker,
                      Mappers := p.Mappers } = (ok, err)) :
    ((p.GRPCClient Implements broker conn).1.2 ≠ none ↔ err ≠ none) ∧
    (err ≠ none → (p.GRPCClient Implements broker conn).1 = (none, err)) ∧
    (err = none → ∃ m, (p.GRPCClient Implements broker conn).1 = (some m, none) ∧
      m.Authenticator.isNil = false ∧
      (m.Authenticator.target ≠ none ↔ ok = true) ∧
      (ok = false → m.Authenticator = Iface.holds none) ∧
      (ok = true → m.Authenticator =
        Iface.holds (some { Client := conn, Logger := p.Logger, Broker := broker,
                            Mappers := p.Mappers })) ∧
      m.Infra = Iface.holds (some (p.newClient broker conn))) := by
  cases err with
  | some e =>
    rw [GRPCClient_error p Implements broker conn ok e h]
    simp
  | none =>
    rw [GRPCClient_ok p Implements broker conn ok h]
    cases ok <;> simp [Iface.isNil, Iface.target]

/-- C3 amended, at concrete probes: a plugin without an authenticator, one with an
authenticator, and a probe that fails. -/
theorem GRPCClient_follows_authenticator_probe_witness :
    (∃ m, (demoPlugin.GRPCClient (fun _ => (false, none)) 2 oldPlugin).1 = (some m, none) ∧
      m.Authenticator = Iface.holds none ∧ m.Authenticator.isNil = false ∧
      m.Infra = Iface.holds (some (demoPlugin.newClient 2 oldPlugin))) ∧
    (∃ m, (demoPlugin.GRPCClient (fun _ => (true, none)) 2 oldPlugin).1 = (some m, none) ∧
      m.Authenticator.target ≠ none ∧
      m.Infra = Iface.holds (some (demoPlugin.newClient 2 oldPlugin))) ∧
    (demoPlugin.GRPCClient (fun _ => (false, some (GoError.other "eof"))) 2 oldPlugin).1 =
      (none, some (GoError.other "eof")) :=
  have h0 := (GRPCClient_follows_authenticator_probe demoPlugin (fun _ => (false, none)) 2
    oldPlugin false none rfl).2.2 rfl
  have h1 := (GRPCClient_follows_authenticator_probe demoPlugin (fun _ => (true, none)) 2
    oldPlugin true none rfl).2.2 rfl
  have h2 := (GRPCClient_follows_authenticator_probe demoPlugin
    (fun _ => (false, some (GoError.other "eof"))) 2 oldPlugin false
    (some (GoError.other "eof")) rfl).2.1 (by simp)
  ⟨h0.elim fun m hm => ⟨m, hm.1, hm.2.2.2.1 rfl, hm.2.1, hm.2.2.2.2.2⟩,
   h1.elim fun m hm => ⟨m, hm.1, hm.2.2.1.2 rfl, hm.2.2.2.2.2⟩,
   h2⟩

/-- C4, the claim as written fails: for a remote whose authenticator probe says
"absent" (a plugin with the primary role only), none of the three optional
fields of the composite is nil.  `ConfigurableNotify` and `Documented` hold the
infra client, and `Authenticator` is an interface holding a nil pointer. -/
theorem GRPCClient_primary_only_sets_every_field :
    ((demoPlugin.GRPCClient (fun _ => (false, none)) 2 oldPlugin).1.1.map
      (fun m => (m.Infra.isNil, m.Authenticator.isNil, m.ConfigurableNotify.isNil,
                 m.Documented.isNil))) = some (false, false, false, false) ∧
    ((demoPlugin.GRPCClient (fun _ => (false, none)) 2 oldPlugin).1.1.map
      (fun m => (m.ConfigurableNotify.target.isSome, m.Documented.target.isSome))) =
      some (true, true) := by
  exact ⟨rfl, rfl⟩

/-- C4, amended: whenever the probe reports no error, every one of the four
interface fields of the composite returned by `GRPCClient` is non-nil, for every
probe answer; `Infra`, `ConfigurableNotify` and `Documented` hold the infra
client unconditionally (the last two are not probed); and the only thing that
depends on the probe is the pointer stored in `Authenticator`, which is non-nil
only if the authenticator was probed present and is the nil pointer for a plugin
with the primary role only (probe `false`). -/
theorem GRPCClient_composite_fields (p : InfraPlugin)
    (Implements : authenticatorClient → Bool × Option GoError)
    (broker : Nat) (conn : InfrastructureClient) (ok : Bool)
    (h : Implements { Client := conn, Logger := p.Logger, Broker := broker,
                      Mappers := p.Mappers } = (ok, none)) :
    ∃ m, (p.GRPCClient Implements broker conn).1 = (some m, none) ∧
      m.Infra = Iface.holds (some (p.newClient broker conn)) ∧
      m.ConfigurableNotify = Iface.holds (some (p.newClient broker conn)) ∧
      m.Documented = Iface.holds (some (p.newClient broker conn)) ∧
      (m.Infra.isNil = false ∧ m.Authenticator.isNil = false ∧
        m.ConfigurableNotify.isNil = false ∧ m.Documented.isNil = false) ∧
      (m.Authenticator.target ≠ none → ok = true) ∧
      (ok = false → m.Authenticator = Iface.holds none) := by
  rw [GRPCClient_ok p Implements broker conn ok h]
  cases ok <;> simp [Iface.isNil, Iface.target]

/-- C4 amended, at the primary-only plugin. -/
theorem GRPCClient_composite_fields_witness :
    ∃ m, (demoPlugin.GRPCClient (fun _ => (false, none)) 2 oldPlugin).1 = (some m, none) ∧
      m.Infra = Iface.holds (some (demoPlugin.newClient 2 oldPlugin)) ∧
      m.ConfigurableNotify = Iface.holds (some (demoPlugin.newClient 2 oldPlugin)) ∧
      m.Documented = Iface.holds (some (demoPlugin.newClient 2 oldPlugin)) ∧
      m.Authenticator = Iface.holds none ∧ m.Authenticator.isNil = false :=
  (GRPCClient_composite_fields demoPlugin (fun _ => (false, none)) 2 oldPlugin false rfl).elim
    fun m hm => ⟨m, hm.1, hm.2.1, hm.2.2.1, hm.2.2.2.1, hm.2.2.2.2.2.2 rfl,
      hm.2.2.2.2.1.2.1⟩

end plugin

/-! ## Theorems about the server's spec handlers -/

namespace plugin

/-- C5: `InfraSpec` returns no spec and an error with status code `Unimplemented`
whenever `Impl` is nil, and `InfraSpecODR` does so whenever `Impl` is nil or does
not implement `component.InfraODR`; in these cases `funcspec.Spec` is not called
(the call has no effects at all).  In every other case the handler returns
exactly the pair `funcspec.Spec` produces for `Impl.InfraFunc()`, respectively
`InfraODRFunc()`. -/
theorem server_spec_handlers_signal_unimplemented {F Raw : Type} (env : ServerEnv F Raw)
    (s : infraServer F) (cid : Nat) :
    status_Code errNotImplemented = codes.Unimplemented ∧
    (s.Impl = none →
      s.InfraSpec env cid = ((none, some errNotImplemented), []) ∧
      Event.funcspecSpec ∉ (s.InfraSpec env cid).2) ∧
    (∀ impl, s.Impl = some impl →
      (s.InfraSpec env cid).1 = env.Spec impl.InfraFunc s.Logger s.Mappers (s.internal cid)) ∧
    (s.Impl = none ∨ (∃ impl, s.Impl = some impl ∧ impl.InfraODRFunc = none) →
      s.InfraSpecODR env cid = ((none, some errNotImplemented), []) ∧
      Event.funcspecSpec ∉ (s.InfraSpecODR env cid).2) ∧
    (∀ impl odrFunc, s.Impl = some impl → impl.InfraODRFunc = some odrFunc →
      (s.InfraSpecODR env cid).1 = env.Spec odrFunc s.Logger s.Mappers (s.internal cid)) := by
  refine ⟨rfl, ?_, ?_, ?_, ?_⟩
  · intro h
    simp [infraServer.InfraSpec, h]
  · intro impl h
    simp [infraServer.InfraSpec, h]
  · rintro (h | ⟨impl, h, ho⟩)
    · simp [infraServer.InfraSpecODR, h]
    · simp [infraServer.InfraSpecODR, h, ho]
  · intro impl odrFunc h ho
    simp [infraServer.InfraSpecODR, h, ho]

/-- C5 at concrete servers: no implementation, a primary-only implementation and
one with both functions. -/
theorem server_spec_handlers_signal_unimplemented_witness :
    (demoServer none).InfraSpec demoEnv 0 =
      ((none, some (GoError.status codes.Unimplemented "plugin does not implement: infra")), []) ∧
    (demoServer (some primaryOnlyImpl)).InfraSpecODR demoEnv 0 =
      ((none, some (GoError.status codes.Unimplemented "plugin does not implement: infra")), []) ∧
    ((demoServer (some primaryOnlyImpl)).InfraSpec demoEnv 0).1 = (some demoSpec, none) ∧
    ((demoServer (some bothImpl)).InfraSpecODR demoEnv 0).1 = (some demoSpecODR, none) :=
  ⟨((server_spec_handlers_signal_unimplemented demoEnv (demoServer none) 0).2.1 rfl).1,
   ((server_spec_handlers_signal_unimplemented demoEnv (demoServer (some primaryOnlyImpl))
      0).2.2.2.1 (Or.inr ⟨primaryOnlyImpl, rfl, rfl⟩)).1,
   (server_spec_handlers_signal_unimplemented demoEnv (demoServer (some primaryOnlyImpl))
      0).2.2.1 primaryOnlyImpl rfl,
   (server_spec_handlers_signal_unimplemented demoEnv (demoServer (some bothImpl))
      0).2.2.2.2 bothImpl 8 rfl rfl⟩

end plugin

/-! ## Theorems about the client's result assembly -/

namespace plugin

/-- C7: `infraClient.infra` fails exactly when the `Infra` request returns an
error or the reply's `TemplateData` is non-empty and does not decode; a request
error and a decode error are returned unchanged; otherwise the artifact carries
the reply's `Result`, `ResultJson` and `Labels` unchanged, with the decoded
mapping as `TemplateVal` when `TemplateData` is non-empty and the nil mapping
when it is empty. -/
theorem infra_assembles_artifact {M : Type}
    (unmarshal : List Nat → Except GoError (Option M))
    (c : infraClient) (args : List FuncSpec_Value) :
    ((∃ e, c.infra unmarshal args = Except.error e) ↔
      ((∃ e, c.client.Infra args = Except.error e) ∨
       (∃ resp e, c.client.Infra args = Except.ok resp ∧ resp.TemplateData ≠ [] ∧
          unmarshal resp.TemplateData = Except.error e))) ∧
    (∀ e, c.client.Infra args = Except.error e → c.infra unmarshal args = Except.error e) ∧
    (∀ resp e, c.client.Infra args = Except.ok resp → resp.TemplateData ≠ [] →
      unmarshal resp.TemplateData = Except.error e →
      c.infra unmarshal args = Except.error e) ∧
    (∀ resp m, c.client.Infra args = Except.ok resp → resp.TemplateData ≠ [] →
      unmarshal resp.TemplateData = Except.ok m →
      c.infra unmarshal args =
        Except.ok { Any := resp.Result, AnyJson := resp.ResultJson,
                    LabelsVal := resp.Labels, TemplateVal := m }) ∧
    (∀ resp, c.client.Infra args = Except.ok resp → resp.TemplateData = [] →
      c.infra unmarshal args =
        Except.ok { Any := resp.Result, AnyJson := resp.ResultJson,
                    LabelsVal := resp.Labels, TemplateVal := none }) := by
  unfold infraClient.infra
  cases hr : c.client.Infra args with
  | error e0 => simp
  | ok resp =>
    by_cases ht : resp.TemplateData = []
    · simp only [ht, List.length_nil, gt_iff_lt, lt_self_iff_false, if_false]
      refine ⟨?_, ?_, ?_, ?_, ?_⟩
      · constructor
        · rintro ⟨e, he⟩
          cases he
        · rintro (⟨e, he⟩ | ⟨r, e, hrr, hne, -⟩)
          · cases he
          · cases hrr
            exact absurd ht hne
      · intro e he
        cases he
      · intro r e hrr hne
        cases hrr
        exact absurd ht hne
      · intro r m hrr hne
        cases hrr
        exact absurd ht hne
      · intro r hrr _
        cases hrr
        rfl
    · have hlen : resp.TemplateData.length > 0 := List.length_pos.mpr ht
      simp only [hlen, if_true]
      cases hu : unmarshal resp.TemplateData with
      | error e1 =>
        refine ⟨?_, ?_, ?_, ?_, ?_⟩
        · exact ⟨fun _ => Or.inr ⟨resp, e1, rfl, ht, hu⟩, fun _ => ⟨e1, rfl⟩⟩
        · intro e he
          cases he
        · intro r e hrr _ hue
          cases hrr
          rw [hu] at hue
          cases hue
          rfl
        · intro r m hrr _ hum
          cases hrr
          rw [hu] at hum
          cases hum
        · intro r hrr hemp
          cases hrr
          exact absurd hemp ht
      | ok m =>
        refine ⟨?_, ?_, ?_, ?_, ?_⟩
        · constructor
          · rintro ⟨e, he⟩
            cases he
          · rintro (⟨e, he⟩ | ⟨r, e, hrr, -, hue⟩)
            · cases he
            · cases hrr
              rw [hu] at hue
              cases hue
        · intro e he
          cases he
        · intro r e hrr _ hue
          cases hrr
          rw [hu] at hue
          cases hue
        · intro r m2 hrr _ hum
          cases hrr
          rw [hu] at hum
          cases hum
          rfl
        · intro r hrr hemp
          cases hrr
          exact absurd hemp ht

/-- C7 at concrete replies: a reply without template data, one whose template
data decodes, and a request error. -/
theorem infra_assembles_artifact_witness :
    (demoClient oldPlugin false).infra demoUnmarshal [] =
      Except.ok { Any := demoResp.Result, AnyJson := "[1]", LabelsVal := [("tier", "web")],
                  TemplateVal := none } ∧
    (demoClient flakyPlugin false).infra demoUnmarshal [] =
      Except.ok { Any := demoResp.Result, AnyJson := "[1]", LabelsVal := [("tier", "web")],
                  TemplateVal := some [] } ∧
    ¬ (∃ e, (demoClient oldPlugin false).infra demoUnmarshal [] = Except.error e) :=
  have h0 := infra_assembles_artifact demoUnmarshal (demoClient oldPlugin false) []
  have h1 := infra_assembles_artifact demoUnmarshal (demoClient flakyPlugin false) []
  ⟨h0.2.2.2.2 demoResp rfl rfl,
   h1.2.2.2.1 demoRespTpl (some []) rfl (by decide) rfl,
   by
     rw [h0.1]
     rintro (⟨e, he⟩ | ⟨resp, e, hr, ht, -⟩)
     · cases he
     · cases hr
       exact ht rfl⟩

/-- C8, the code at a failing input: for the reply `demoResp`, whose `ResultJson`
is "[1]", the primary-mode `infra` returns an artifact with `AnyJson = "[1]"`,
while `infraODR` returns one with an empty `AnyJson`; the two artifacts differ,
though payload, labels and template data agree. -/
theorem infraODR_drops_ResultJson :
    (((demoClient odrPlugin true).infra demoUnmarshal []).toOption.map
      (fun a => (a.Any, a.AnyJson, a.LabelsVal, a.TemplateVal))) =
      some (demoResp.Result, "[1]", [("tier", "web")], none) ∧
    (((demoClient odrPlugin true).infraODR demoUnmarshal []).toOption.map
      (fun a => (a.Any, a.AnyJson, a.LabelsVal, a.TemplateVal))) =
      some (demoResp.Result, "", [("tier", "web")], none) ∧
    odrPlugin.Infra [] = odrPlugin.InfraODR [] := by
  refine ⟨rfl, rfl, rfl⟩

end plugin

/-! ## Theorems about the server's cleanup discipline -/

namespace plugin

theorem invoke_has_no_cleanup_events {F Raw : Type} (env : ServerEnv F Raw)
    (s : infraServer F) (f : F) (internal : Internal) (args : List FuncSpec_Value) (cid : Nat) :
    closeCount cid (s.invoke env f internal args).2 = 0 ∧
    newCleanupCount (s.invoke env f internal args).2 = 0 ∧
    anyCloseCount (s.invoke env f internal args).2 = 0 := by
  unfold infraServer.invoke
  cases env.callDynamicFuncAny2 f args s.Mappers s.Logger internal with
  | panic => exact ⟨by simp [closeCount], rfl, rfl⟩
  | error err => exact ⟨by simp [closeCount], rfl, rfl⟩
  | ok v =>
    obtain ⟨encoded, encodedJson, raw⟩ := v
    simp only
    cases env.templateData raw with
    | panic => exact ⟨by simp [closeCount], rfl, rfl⟩
    | error err => exact ⟨by simp [closeCount], rfl, rfl⟩
    | ok data => exact ⟨by simp [closeCount], rfl, rfl⟩

theorem invoke_propagates_failures {F Raw : Type} (env : ServerEnv F Raw)
    (s : infraServer F) (f : F) (internal : Internal) (args : List FuncSpec_Value) :
    (∀ e, env.callDynamicFuncAny2 f args s.Mappers s.Logger internal = Outcome.error e →
      (s.invoke env f internal args).1 = Outcome.error e) ∧
    (∀ v e, env.callDynamicFuncAny2 f args s.Mappers s.Logger internal = Outcome.ok v →
      env.templateData v.2.2 = Outcome.error e →
      (s.invoke env f internal args).1 = Outcome.error e) ∧
    (∀ v data, env.callDynamicFuncAny2 f args s.Mappers s.Logger internal = Outcome.ok v →
      env.templateData v.2.2 = Outcome.ok data →
      ∃ resp, (s.invoke env f internal args).1 = Outcome.ok resp ∧
        resp.Result = v.1 ∧ resp.ResultJson = v.2.1 ∧ resp.TemplateData = data) := by
  unfold infraServer.invoke
  refine ⟨?_, ?_, ?_⟩
  · intro e h
    simp only [h]
  · rintro ⟨encoded, encodedJson, raw⟩ e h ht
    simp only at ht
    simp only [h, ht]
  · rintro ⟨encoded, encodedJson, raw⟩ data h ht
    simp only at ht
    simp only [h, ht]
    exact ⟨_, rfl, rfl, rfl, rfl⟩

theorem count_events_append (xs ys : List Event) :
    newCleanupCount (xs ++ ys) = newCleanupCount xs + newCleanupCount ys ∧
    anyCloseCount (xs ++ ys) = anyCloseCount xs + anyCloseCount ys := by
  simp [newCleanupCount, anyCloseCount, List.filter_append]

theorem deferred_close_counts {α : Type} (cid : Nat) (internal : Internal)
    (body : Outcome α × List Event) (hcid : internal.Cleanup = cid)
    (h0 : closeCount cid body.2 = 0) (h1 : newCleanupCount body.2 = 0)
    (h2 : anyCloseCount body.2 = 0) :
    closeCount cid ([Event.newCleanup cid] ++ (withDeferredClose internal body).2) = 1 ∧
    newCleanupCount ([Event.newCleanup cid] ++ (withDeferredClose internal body).2) = 1 ∧
    anyCloseCount ([Event.newCleanup cid] ++ (withDeferredClose internal body).2) = 1 ∧
    ([Event.newCleanup cid] ++ (withDeferredClose internal body).2).getLast? =
      some (Event.closeCleanup cid) := by
  unfold withDeferredClose
  simp only [hcid]
  refine ⟨?_, ?_, ?_, ?_⟩
  · unfold closeCount at h0 ⊢
    rw [List.count_append, List.count_append, h0]
    simp
  · rw [(count_events_append _ _).1, (count_events_append _ _).1, h1]
    rfl
  · rw [(count_events_append _ _).2, (count_events_append _ _).2, h2]
    rfl
  · rw [← List.append_assoc, List.getLast?_append]
    rfl

theorem Infra_unfold {F Raw : Type} (env : ServerEnv F Raw) (s : infraServer F)
    (cid : Nat) (args : List FuncSpec_Value) :
    ∃ body : Outcome Infra_Resp × List Event,
      s.Infra env cid args =
        (body.1, [Event.newCleanup cid] ++ (withDeferredClose (s.internal cid) body).2) ∧
      closeCount cid body.2 = 0 ∧ newCleanupCount body.2 = 0 ∧ anyCloseCount body.2 = 0 ∧
      (∀ impl, s.Impl = some impl → body = s.invoke env impl.InfraFunc (s.internal cid) args) := by
  cases h : s.Impl with
  | none =>
    refine ⟨(Outcome.panic, []), ?_, rfl, rfl, rfl, ?_⟩
    · simp [infraServer.Infra, h, withDeferredClose]
    · intro impl hi
      cases hi
  | some impl =>
    obtain ⟨h0, h1, h2⟩ :=
      invoke_has_no_cleanup_events env s impl.InfraFunc (s.internal cid) args cid
    refine ⟨s.invoke env impl.InfraFunc (s.internal cid) args, ?_, h0, h1, h2, ?_⟩
    · simp [infraServer.Infra, h, withDeferredClose]
    · intro impl2 hi
      cases hi
      rfl

theorem InfraODR_unfold {F Raw : Type} (env : ServerEnv F Raw) (s : infraServer F)
    (cid : Nat) (args : List FuncSpec_Value) (impl : InfraImpl F) (odrFunc : F)
    (hi : s.Impl = some impl) (ho : impl.InfraODRFunc = some odrFunc) :
    s.InfraODR env cid args =
      ((s.invoke env odrFunc (s.internal cid) args).1,
       [Event.newCleanup cid] ++
         (withDeferredClose (s.internal cid) (s.invoke env odrFunc (s.internal cid) args)).2) := by
  simp [infraServer.InfraODR, hi, ho, withDeferredClose]

/-- C9: every call of `infraServer.Infra`, and every call of `infraServer.InfraODR`
that passes the capability check, creates one cleanup collector and closes that
collector exactly once (and closes nothing else), whichever way the body ends;
the close is the last thing the call does.  A failure of the dynamic call or of
`templateData` is returned as an error with no response.  An `InfraODR` call
rejected as not implemented returns the `Unimplemented` error, creates no
collector and closes none. -/
theorem server_cleanup_closed_exactly_once {F Raw : Type} (env : ServerEnv F Raw)
    (s : infraServer F) (cid : Nat) (args : List FuncSpec_Value) :
    (closeCount cid (s.Infra env cid args).2 = 1 ∧
      newCleanupCount (s.Infra env cid args).2 = 1 ∧
      anyCloseCount (s.Infra env cid args).2 = 1 ∧
      (s.Infra env cid args).2.getLast? = some (Event.closeCleanup cid)) ∧
    (∀ impl odrFunc, s.Impl = some impl → impl.InfraODRFunc = some odrFunc →
      closeCount cid (s.InfraODR env cid args).2 = 1 ∧
      newCleanupCount (s.InfraODR env cid args).2 = 1 ∧
      anyCloseCount (s.InfraODR env cid args).2 = 1 ∧
      (s.InfraODR env cid args).2.getLast? = some (Event.closeCleanup cid)) ∧
    (s.Impl = none ∨ (∃ impl, s.Impl = some impl ∧ impl.InfraODRFunc = none) →
      s.InfraODR env cid args = (Outcome.error errNotImplemented, []) ∧
      newCleanupCount (s.InfraODR env cid args).2 = 0 ∧
      anyCloseCount (s.InfraODR env cid args).2 = 0) ∧
    (∀ impl e, s.Impl = some impl →
      env.callDynamicFuncAny2 impl.InfraFunc args s.Mappers s.Logger (s.internal cid) =
        Outcome.error e →
      (s.Infra env cid args).1 = Outcome.error e) ∧
    (∀ impl v e, s.Impl = some impl →
      env.callDynamicFuncAny2 impl.InfraFunc args s.Mappers s.Logger (s.internal cid) =
        Outcome.ok v →
      env.templateData v.2.2 = Outcome.error e →
      (s.Infra env cid args).1 = Outcome.error e) ∧
    (∀ impl odrFunc e, s.Impl = some impl → impl.InfraODRFunc = some odrFunc →
      env.callDynamicFuncAny2 odrFunc args s.Mappers s.Logger (s.internal cid) =
        Outcome.error e →
      (s.InfraODR env cid args).1 = Outcome.error e) ∧
    (∀ impl odrFunc v e, s.Impl = some impl → impl.InfraODRFunc = some odrFunc →
      env.callDynamicFuncAny2 odrFunc args s.Mappers s.Logger (s.internal cid) =
        Outcome.ok v →
      env.templateData v.2.2 = Outcome.error e →
      (s.InfraODR env cid args).1 = Outcome.error e) := by
  obtain ⟨body, hbody, h0, h1, h2, hinv⟩ := Infra_unfold env s cid args
  refine ⟨?_, ?_, ?_, ?_, ?_, ?_, ?_⟩
  · rw [hbody]
    exact deferred_close_counts cid (s.internal cid) body rfl h0 h1 h2
  · intro impl odrFunc hi ho
    rw [InfraODR_unfold env s cid args impl odrFunc hi ho]
    obtain ⟨g0, g1, g2⟩ := invoke_has_no_cleanup_events env s odrFunc (s.internal cid) args cid
    exact deferred_close_counts cid (s.internal cid) _ rfl g0 g1 g2
  · rintro (h | ⟨impl, h, ho⟩)
    · simp [infraServer.InfraODR, h, newCleanupCount, anyCloseCount]
    · simp [infraServer.InfraODR, h, ho, newCleanupCount, anyCloseCount]
  · intro impl e hi hc
    rw [hbody, hinv impl hi]
    exact (invoke_propagates_failures env s impl.InfraFunc (s.internal cid) args).1 e hc
  · intro impl v e hi hc ht
    rw [hbody, hinv impl hi]
    exact (invoke_propagates_failures env s impl.InfraFunc (s.internal cid) args).2.1 v e hc ht
  · intro impl odrFunc e hi ho hc
    rw [InfraODR_unfold env s cid args impl odrFunc hi ho]
    exact (invoke_propagates_failures env s odrFunc (s.internal cid) args).1 e hc
  · intro impl odrFunc v e hi ho hc ht
    rw [InfraODR_unfold env s cid args impl odrFunc hi ho]
    exact (invoke_propagates_failures env s odrFunc (s.internal cid) args).2.1 v e hc ht

/-- C9 at concrete servers: a successful `Infra` call, an `InfraODR` call whose
dynamic function fails, and an `InfraODR` call rejected as not implemented. -/
theorem server_cleanup_closed_exactly_once_witness :
    (demoServer (some bothImpl)).Infra demoEnv 5 [] =
      (Outcome.ok demoResp,
       [Event.newCleanup 5, Event.callDynamicFuncAny2, Event.templateData,
        Event.closeCleanup 5]) ∧
    closeCount 5 ((demoServer (some bothImpl)).Infra demoEnv 5 []).2 = 1 ∧
    ((demoServer (some bothImpl)).InfraODR demoEnv 5 []).1 =
      Outcome.error (GoError.other "boom") ∧
    closeCount 5 ((demoServer (some bothImpl)).InfraODR demoEnv 5 []).2 = 1 ∧
    (demoServer (some primaryOnlyImpl)).InfraODR demoEnv 5 [] =
      (Outcome.error errNotImplemented, []) :=
  have h := server_cleanup_closed_exactly_once demoEnv (demoServer (some bothImpl)) 5 []
  have hp := server_cleanup_closed_exactly_once demoEnv (demoServer (some primaryOnlyImpl)) 5 []
  ⟨rfl, h.1.1, h.2.2.2.2.2.1 bothImpl 8 (GoError.other "boom") rfl rfl rfl,
   (h.2.1 bothImpl 8 rfl rfl).1, (hp.2.2.1 (Or.inr ⟨primaryOnlyImpl, rfl, rfl⟩)).1⟩

end plugin
